import Mathlib

/-!
Verification of the tcp-kcp-wrapper session bridge (src/main.rs).

The program relays bytes between a TCP stream and a KCP tunnel session.
We shallowly embed the code:

* `handle_session` (main.rs:106-149) is a `tokio::select!` loop.  Each
  iteration the runtime picks one ready direction; we model that choice by an
  explicit schedule (a list of `Dir`).  The bytes a half delivers to `read`
  are modelled as a list of `ReadEvent`s (a chunk of bytes for `Ok(n)` with
  the chunk's contents, the empty chunk for `Ok(0)`, and `rerr` for `Err`).
  The outcome of each `write_all`/`flush` pair on a half is modelled by an
  oracle list of `WOutcome` (`wok`: both succeed, `wfail`: `write_all` fails,
  `ffail`: `write_all` succeeds and `flush` fails); an exhausted oracle means
  the writes succeed.  Each step also records the I/O operations performed,
  so that ordering claims are statements about the operation trace.
* `run_server` (main.rs:44-76) and `run_client` (main.rs:78-104) are accept
  loops; we model them over a list of accept events.  `tokio::spawn`ed
  session tasks share no state with the loop or each other, so the model
  runs each task inline; per-session operation counts and the loop's own
  control flow are unaffected by the real interleaving.
* `main` (main.rs:27-42) and the clap-derived `Args` (main.rs:8-25) are
  modelled as a pure parse/dispatch function over the command line.
-/

namespace TKW

/-- A byte as read from a socket.  Bytes are opaque to the relay; we model
them as naturals. -/
abbrev Byte := Nat

/-- Result of one `read` call on a half: `data c` is `Ok(c.length)` with the
bytes `c` placed in the buffer (`data []` is `Ok(0)`, end-of-stream), `rerr`
is `Err(e)`. -/
inductive ReadEvent where
  | data (chunk : List Byte)
  | rerr
deriving DecidableEq

/-- Outcome of the `write_all` + `flush` pair performed on a half for one
relayed chunk. -/
inductive WOutcome where
  | wok
  | wfail
  | ffail
deriving DecidableEq

/-- The two halves of a session: the TCP stream and the KCP stream. -/
inductive Half where
  | tcp
  | kcp
deriving DecidableEq

/-- The opposite half. -/
def otherHalf : Half → Half
  | Half.tcp => Half.kcp
  | Half.kcp => Half.tcp

/-- The two `tokio::select!` branches of `handle_session`. -/
inductive Dir where
  | tcpToKcp
  | kcpToTcp
deriving DecidableEq

/-- I/O operations performed by a session task, in order. -/
inductive Op where
  | read (h : Half) (r : ReadEvent)
  | write (h : Half) (chunk : List Byte)
  | writeErr (h : Half)
  | flush (h : Half)
  | flushErr (h : Half)
  | close (h : Half)
deriving DecidableEq

/-- The value of `handle_session`'s `Result` when the loop ends. -/
inductive SessResult where
  | ok
  | err
deriving DecidableEq

/-- State of one relay loop: the pending read results on each half, the
write/flush outcome oracles for each half, and the bytes written so far to
each half. -/
structure RelayState where
  tcpIn : List ReadEvent
  kcpIn : List ReadEvent
  tcpW : List WOutcome
  kcpW : List WOutcome
  toKcp : List Byte
  toTcp : List Byte
deriving DecidableEq

/-- Continuation after one `select!` arm has run. -/
inductive LoopCtl where
  | next
  | done (r : SessResult)
deriving DecidableEq

/-- Result of one `select!` arm: operations performed, new state,
continuation. -/
structure StepResult where
  ops : List Op
  state : RelayState
  ctl : LoopCtl
deriving DecidableEq

/-- One iteration of the `handle_session` loop, given the direction the
`select!` picked (main.rs:114-146).  A read of `Ok(0)` or `Err` breaks the
loop and the function returns `Ok(())`; a `write_all` or `flush` error is
propagated by `?` and the function returns `Err`.  Picking a direction whose
half has no pending read result models a read that is not ready: no
operation is performed.  On a failed `write_all` the number of bytes actually
transferred is unspecified, so the model records none. -/
def stepDir : Dir → RelayState → StepResult
  | Dir.tcpToKcp, s =>
    match s.tcpIn with
    | [] => ⟨[], s, LoopCtl.next⟩
    | ReadEvent.data [] :: rest =>
        ⟨[Op.read Half.tcp (ReadEvent.data [])], { s with tcpIn := rest },
         LoopCtl.done SessResult.ok⟩
    | ReadEvent.rerr :: rest =>
        ⟨[Op.read Half.tcp ReadEvent.rerr], { s with tcpIn := rest },
         LoopCtl.done SessResult.ok⟩
    | ReadEvent.data (b :: bs) :: rest =>
        match s.kcpW.headD WOutcome.wok with
        | WOutcome.wok =>
            ⟨[Op.read Half.tcp (ReadEvent.data (b :: bs)),
              Op.write Half.kcp (b :: bs), Op.flush Half.kcp],
             { s with tcpIn := rest, kcpW := s.kcpW.tail,
                      toKcp := s.toKcp ++ (b :: bs) },
             LoopCtl.next⟩
        | WOutcome.wfail =>
            ⟨[Op.read Half.tcp (ReadEvent.data (b :: bs)), Op.writeErr Half.kcp],
             { s with tcpIn := rest, kcpW := s.kcpW.tail },
             LoopCtl.done SessResult.err⟩
        | WOutcome.ffail =>
            ⟨[Op.read Half.tcp (ReadEvent.data (b :: bs)),
              Op.write Half.kcp (b :: bs), Op.flushErr Half.kcp],
             { s with tcpIn := rest, kcpW := s.kcpW.tail,
                      toKcp := s.toKcp ++ (b :: bs) },
             LoopCtl.done SessResult.err⟩
  | Dir.kcpToTcp, s =>
    match s.kcpIn with
    | [] => ⟨[], s, LoopCtl.next⟩
    | ReadEvent.data [] :: rest =>
        ⟨[Op.read Half.kcp (ReadEvent.data [])], { s with kcpIn := rest },
         LoopCtl.done SessResult.ok⟩
    | ReadEvent.rerr :: rest =>
        ⟨[Op.read Half.kcp ReadEvent.rerr], { s with kcpIn := rest },
         LoopCtl.done SessResult.ok⟩
    | ReadEvent.data (b :: bs) :: rest =>
        match s.tcpW.headD WOutcome.wok with
        | WOutcome.wok =>
            ⟨[Op.read Half.kcp (ReadEvent.data (b :: bs)),
              Op.write Half.tcp (b :: bs), Op.flush Half.tcp],
             { s with kcpIn := rest, tcpW := s.tcpW.tail,
                      toTcp := s.toTcp ++ (b :: bs) },
             LoopCtl.next⟩
        | WOutcome.wfail =>
            ⟨[Op.read Half.kcp (ReadEvent.data (b :: bs)), Op.writeErr Half.tcp],
             { s with kcpIn := rest, tcpW := s.tcpW.tail },
             LoopCtl.done SessResult.err⟩
        | WOutcome.ffail =>
            ⟨[Op.read Half.kcp (ReadEvent.data (b :: bs)),
              Op.write Half.tcp (b :: bs), Op.flushErr Half.tcp],
             { s with kcpIn := rest, tcpW := s.tcpW.tail,
                      toTcp := s.toTcp ++ (b :: bs) },
             LoopCtl.done SessResult.err⟩

/-- Result of running the `handle_session` loop under a schedule: the
operation trace, the final state, and the loop's result (`none` when the
schedule ends with the loop still running). -/
structure RunResult where
  trace : List Op
  state : RelayState
  result : Option SessResult
deriving DecidableEq

/-- The `handle_session` loop (main.rs:114-146) run under a schedule of
direction picks. -/
def relayRun : List Dir → RelayState → RunResult
  | [], s => ⟨[], s, none⟩
  | d :: sch, s =>
    match (stepDir d s).ctl with
    | LoopCtl.done r => ⟨(stepDir d s).ops, (stepDir d s).state, some r⟩
    | LoopCtl.next =>
      ⟨(stepDir d s).ops ++ (relayRun sch (stepDir d s).state).trace,
       (relayRun sch (stepDir d s).state).state,
       (relayRun sch (stepDir d s).state).result⟩

lemma relayRun_nil (s : RelayState) : relayRun [] s = ⟨[], s, none⟩ := rfl

lemma relayRun_cons_done (d : Dir) (sch : List Dir) (s : RelayState)
    (r : SessResult) (h : (stepDir d s).ctl = LoopCtl.done r) :
    relayRun (d :: sch) s = ⟨(stepDir d s).ops, (stepDir d s).state, some r⟩ := by
  simp [relayRun, h]

lemma relayRun_cons_next (d : Dir) (sch : List Dir) (s : RelayState)
    (h : (stepDir d s).ctl = LoopCtl.next) :
    relayRun (d :: sch) s =
      ⟨(stepDir d s).ops ++ (relayRun sch (stepDir d s).state).trace,
       (relayRun sch (stepDir d s).state).state,
       (relayRun sch (stepDir d s).state).result⟩ := by
  simp [relayRun, h]

lemma stepDir_t2k_nil (s : RelayState) (h : s.tcpIn = []) :
    stepDir Dir.tcpToKcp s = ⟨[], s, LoopCtl.next⟩ := by
  simp [stepDir, h]

lemma stepDir_t2k_eof (s : RelayState) (rest : List ReadEvent)
    (h : s.tcpIn = ReadEvent.data [] :: rest) :
    stepDir Dir.tcpToKcp s =
      ⟨[Op.read Half.tcp (ReadEvent.data [])], { s with tcpIn := rest },
       LoopCtl.done SessResult.ok⟩ := by
  simp [stepDir, h]

lemma stepDir_t2k_rerr (s : RelayState) (rest : List ReadEvent)
    (h : s.tcpIn = ReadEvent.rerr :: rest) :
    stepDir Dir.tcpToKcp s =
      ⟨[Op.read Half.tcp ReadEvent.rerr], { s with tcpIn := rest },
       LoopCtl.done SessResult.ok⟩ := by
  simp [stepDir, h]

lemma stepDir_t2k_data_wok (s : RelayState) (b : Byte) (bs : List Byte)
    (rest : List ReadEvent) (h : s.tcpIn = ReadEvent.data (b :: bs) :: rest)
    (hw : s.kcpW.headD WOutcome.wok = WOutcome.wok) :
    stepDir Dir.tcpToKcp s =
      ⟨[Op.read Half.tcp (ReadEvent.data (b :: bs)),
        Op.write Half.kcp (b :: bs), Op.flush Half.kcp],
       { s with tcpIn := rest, kcpW := s.kcpW.tail,
                toKcp := s.toKcp ++ (b :: bs) },
       LoopCtl.next⟩ := by
  rw [List.headD_eq_head?] at hw
  simp [stepDir, h, hw]

lemma stepDir_t2k_data_wfail (s : RelayState) (b : Byte) (bs : List Byte)
    (rest : List ReadEvent) (h : s.tcpIn = ReadEvent.data (b :: bs) :: rest)
    (hw : s.kcpW.headD WOutcome.wok = WOutcome.wfail) :
    stepDir Dir.tcpToKcp s =
      ⟨[Op.read Half.tcp (ReadEvent.data (b :: bs)), Op.writeErr Half.kcp],
       { s with tcpIn := rest, kcpW := s.kcpW.tail },
       LoopCtl.done SessResult.err⟩ := by
  rw [List.headD_eq_head?] at hw
  simp [stepDir, h, hw]

lemma stepDir_t2k_data_ffail (s : RelayState) (b : Byte) (bs : List Byte)
    (rest : List ReadEvent) (h : s.tcpIn = ReadEvent.data (b :: bs) :: rest)
    (hw : s.kcpW.headD WOutcome.wok = WOutcome.ffail) :
    stepDir Dir.tcpToKcp s =
      ⟨[Op.read Half.tcp (ReadEvent.data (b :: bs)),
        Op.write Half.kcp (b :: bs), Op.flushErr Half.kcp],
       { s with tcpIn := rest, kcpW := s.kcpW.tail,
                toKcp := s.toKcp ++ (b :: bs) },
       LoopCtl.done SessResult.err⟩ := by
  rw [List.headD_eq_head?] at hw
  simp [stepDir, h, hw]

lemma stepDir_k2t_nil (s : RelayState) (h : s.kcpIn = []) :
    stepDir Dir.kcpToTcp s = ⟨[], s, LoopCtl.next⟩ := by
  simp [stepDir, h]

lemma stepDir_k2t_eof (s : RelayState) (rest : List ReadEvent)
    (h : s.kcpIn = ReadEvent.data [] :: rest) :
    stepDir Dir.kcpToTcp s =
      ⟨[Op.read Half.kcp (ReadEvent.data [])], { s with kcpIn := rest },
       LoopCtl.done SessResult.ok⟩ := by
  simp [stepDir, h]

lemma stepDir_k2t_rerr (s : RelayState) (rest : List ReadEvent)
    (h : s.kcpIn = ReadEvent.rerr :: rest) :
    stepDir Dir.kcpToTcp s =
      ⟨[Op.read Half.kcp ReadEvent.rerr], { s with kcpIn := rest },
       LoopCtl.done SessResult.ok⟩ := by
  simp [stepDir, h]

lemma stepDir_k2t_data_wok (s : RelayState) (b : Byte) (bs : List Byte)
    (rest : List ReadEvent) (h : s.kcpIn = ReadEvent.data (b :: bs) :: rest)
    (hw : s.tcpW.headD WOutcome.wok = WOutcome.wok) :
    stepDir Dir.kcpToTcp s =
      ⟨[Op.read Half.kcp (ReadEvent.data (b :: bs)),
        Op.write Half.tcp (b :: bs), Op.flush Half.tcp],
       { s with kcpIn := rest, tcpW := s.tcpW.tail,
                toTcp := s.toTcp ++ (b :: bs) },
       LoopCtl.next⟩ := by
  rw [List.headD_eq_head?] at hw
  simp [stepDir, h, hw]

lemma stepDir_k2t_data_wfail (s : RelayState) (b : Byte) (bs : List Byte)
    (rest : List ReadEvent) (h : s.kcpIn = ReadEvent.data (b :: bs) :: rest)
    (hw : s.tcpW.headD WOutcome.wok = WOutcome.wfail) :
    stepDir Dir.kcpToTcp s =
      ⟨[Op.read Half.kcp (ReadEvent.data (b :: bs)), Op.writeErr Half.tcp],
       { s with kcpIn := rest, tcpW := s.tcpW.tail },
       LoopCtl.done SessResult.err⟩ := by
  rw [List.headD_eq_head?] at hw
  simp [stepDir, h, hw]

lemma stepDir_k2t_data_ffail (s : RelayState) (b : Byte) (bs : List Byte)
    (rest : List ReadEvent) (h : s.kcpIn = ReadEvent.data (b :: bs) :: rest)
    (hw : s.tcpW.headD WOutcome.wok = WOutcome.ffail) :
    stepDir Dir.kcpToTcp s =
      ⟨[Op.read Half.kcp (ReadEvent.data (b :: bs)),
        Op.write Half.tcp (b :: bs), Op.flushErr Half.tcp],
       { s with kcpIn := rest, tcpW := s.tcpW.tail,
                toTcp := s.toTcp ++ (b :: bs) },
       LoopCtl.done SessResult.err⟩ := by
  rw [List.headD_eq_head?] at hw
  simp [stepDir, h, hw]

/-- Bytes carried by a list of read results: the concatenation of all data
chunks, in order. -/
def flattenData : List ReadEvent → List Byte
  | [] => []
  | ReadEvent.data c :: rest => c ++ flattenData rest
  | ReadEvent.rerr :: rest => flattenData rest

@[simp] lemma flattenData_nil : flattenData [] = [] := rfl

lemma headD_wok_of_all_wok (l : List WOutcome)
    (h : ∀ w ∈ l, w = WOutcome.wok) :
    l.headD WOutcome.wok = WOutcome.wok := by
  cases l with
  | nil => rfl
  | cons w ws => exact h w (List.mem_cons_self w ws)

lemma tail_all_wok (l : List WOutcome) (h : ∀ w ∈ l, w = WOutcome.wok) :
    ∀ w ∈ l.tail, w = WOutcome.wok :=
  fun w hw => h w (List.mem_of_mem_tail hw)

/-- C7: the relay terminates as soon as one direction reaches a terminal
condition (zero-length read, read error, or write/flush error): if the
`select!` arm chosen at some iteration ends the loop, the run's trace,
state and result are exactly those of that single step — the rest of the
schedule is never consulted, so no further read or write happens on either
half, regardless of the events still pending on the other half.  Every
reachable point of the loop is of the form `relayRun sch s` for the
remaining schedule and current state, so this covers any iteration. -/
theorem c7_terminate_on_first_terminal (d : Dir) (sch : List Dir)
    (s : RelayState) (r : SessResult)
    (h : (stepDir d s).ctl = LoopCtl.done r) :
    relayRun (d :: sch) s =
      ⟨(stepDir d s).ops, (stepDir d s).state, some r⟩ :=
  relayRun_cons_done d sch s r h

/-- State for the C7 witness: TCP delivers end-of-stream while the KCP half
still has pending data. -/
def c7state : RelayState :=
  ⟨[ReadEvent.data []], [ReadEvent.data [1, 2]], [], [], [], []⟩

/-- Witness for C7 at a concrete input: TCP end-of-stream ends the session
even though the KCP half still has data pending and the schedule would have
let it run twice more. -/
theorem c7_terminate_on_first_terminal_witness :
    (stepDir Dir.tcpToKcp c7state).ctl = LoopCtl.done SessResult.ok ∧
    relayRun [Dir.tcpToKcp, Dir.kcpToTcp, Dir.kcpToTcp] c7state =
      ⟨(stepDir Dir.tcpToKcp c7state).ops, (stepDir Dir.tcpToKcp c7state).state,
       some SessResult.ok⟩ :=
  ⟨rfl, c7_terminate_on_first_terminal Dir.tcpToKcp [Dir.kcpToTcp, Dir.kcpToTcp]
    c7state SessResult.ok rfl⟩

/-- C1: byte-for-byte passthrough.  Under a lossless underlying channel
(every write and flush succeeds), after any schedule the bytes written to
the KCP half are exactly the data bytes consumed from the TCP half, in
order, with the unconsumed suffix untouched — and symmetrically for the
other direction.  No reordering, duplication, transformation or loss. -/
theorem c1_byte_passthrough (sch : List Dir) (s : RelayState)
    (htw : ∀ w ∈ s.tcpW, w = WOutcome.wok)
    (hkw : ∀ w ∈ s.kcpW, w = WOutcome.wok) :
    ∃ k j,
      (relayRun sch s).state.toKcp = s.toKcp ++ flattenData (List.take k s.tcpIn) ∧
      (relayRun sch s).state.tcpIn = List.drop k s.tcpIn ∧
      (relayRun sch s).state.toTcp = s.toTcp ++ flattenData (List.take j s.kcpIn) ∧
      (relayRun sch s).state.kcpIn = List.drop j s.kcpIn := by
  induction sch generalizing s with
  | nil =>
    exact ⟨0, 0, by simp [relayRun], by simp [relayRun], by simp [relayRun],
      by simp [relayRun]⟩
  | cons d sch ih =>
    cases d with
    | tcpToKcp =>
      cases htcp : s.tcpIn with
      | nil =>
        have hstep := stepDir_t2k_nil s htcp
        rw [relayRun_cons_next _ _ _ (by rw [hstep]), hstep]
        simpa [htcp] using ih s htw hkw
      | cons ev rest =>
        cases ev with
        | rerr =>
          have hstep := stepDir_t2k_rerr s rest htcp
          rw [relayRun_cons_done _ _ _ _ (by rw [hstep]), hstep]
          exact ⟨1, 0, by simp [htcp, flattenData], by simp [htcp], by simp, by simp⟩
        | data c =>
          cases c with
          | nil =>
            have hstep := stepDir_t2k_eof s rest htcp
            rw [relayRun_cons_done _ _ _ _ (by rw [hstep]), hstep]
            exact ⟨1, 0, by simp [htcp, flattenData], by simp [htcp], by simp, by simp⟩
          | cons b bs =>
            have hw := headD_wok_of_all_wok s.kcpW hkw
            have hstep := stepDir_t2k_data_wok s b bs rest htcp hw
            rw [relayRun_cons_next _ _ _ (by rw [hstep]), hstep]
            obtain ⟨k, j, h1, h2, h3, h4⟩ :=
              ih { s with tcpIn := rest, kcpW := s.kcpW.tail,
                          toKcp := s.toKcp ++ (b :: bs) }
                (fun w hww => htw w hww) (tail_all_wok s.kcpW hkw)
            refine ⟨k + 1, j, ?_, ?_, ?_, ?_⟩
            · rw [h1]; simp [htcp, List.take_succ_cons, flattenData]
            · rw [h2]; simp [htcp]
            · rw [h3]
            · rw [h4]
    | kcpToTcp =>
      cases hkcp : s.kcpIn with
      | nil =>
        have hstep := stepDir_k2t_nil s hkcp
        rw [relayRun_cons_next _ _ _ (by rw [hstep]), hstep]
        simpa [hkcp] using ih s htw hkw
      | cons ev rest =>
        cases ev with
        | rerr =>
          have hstep := stepDir_k2t_rerr s rest hkcp
          rw [relayRun_cons_done _ _ _ _ (by rw [hstep]), hstep]
          exact ⟨0, 1, by simp, by simp, by simp [hkcp, flattenData], by simp [hkcp]⟩
        | data c =>
          cases c with
          | nil =>
            have hstep := stepDir_k2t_eof s rest hkcp
            rw [relayRun_cons_done _ _ _ _ (by rw [hstep]), hstep]
            exact ⟨0, 1, by simp, by simp, by simp [hkcp, flattenData], by simp [hkcp]⟩
          | cons b bs =>
            have hw := headD_wok_of_all_wok s.tcpW htw
            have hstep := stepDir_k2t_data_wok s b bs rest hkcp hw
            rw [relayRun_cons_next _ _ _ (by rw [hstep]), hstep]
            obtain ⟨k, j, h1, h2, h3, h4⟩ :=
              ih { s with kcpIn := rest, tcpW := s.tcpW.tail,
                          toTcp := s.toTcp ++ (b :: bs) }
                (tail_all_wok s.tcpW htw) (fun w hww => hkw w hww)
            refine ⟨k, j + 1, ?_, ?_, ?_, ?_⟩
            · rw [h1]
            · rw [h2]
            · rw [h3]; simp [hkcp, List.take_succ_cons, flattenData]
            · rw [h4]; simp [hkcp]

/-- State for the C1 witness: two TCP chunks and one KCP chunk, all writes
succeeding. -/
def c1state : RelayState :=
  ⟨[ReadEvent.data [10, 11], ReadEvent.data [12], ReadEvent.data []],
   [ReadEvent.data [20, 21, 22], ReadEvent.data []],
   [WOutcome.wok], [], [], []⟩

/-- Witness for C1 at a concrete input: an interleaved schedule delivers
the TCP bytes 10,11,12 to the KCP half and the KCP bytes 20,21,22 to the
TCP half, in order. -/
theorem c1_byte_passthrough_witness :
    (∀ w ∈ c1state.tcpW, w = WOutcome.wok) ∧
    (∀ w ∈ c1state.kcpW, w = WOutcome.wok) ∧
    (∃ k j,
      (relayRun [Dir.tcpToKcp, Dir.kcpToTcp, Dir.tcpToKcp, Dir.tcpToKcp]
          c1state).state.toKcp =
        c1state.toKcp ++ flattenData (List.take k c1state.tcpIn) ∧
      (relayRun [Dir.tcpToKcp, Dir.kcpToTcp, Dir.tcpToKcp, Dir.tcpToKcp]
          c1state).state.tcpIn = List.drop k c1state.tcpIn ∧
      (relayRun [Dir.tcpToKcp, Dir.kcpToTcp, Dir.tcpToKcp, Dir.tcpToKcp]
          c1state).state.toTcp =
        c1state.toTcp ++ flattenData (List.take j c1state.kcpIn) ∧
      (relayRun [Dir.tcpToKcp, Dir.kcpToTcp, Dir.tcpToKcp, Dir.tcpToKcp]
          c1state).state.kcpIn = List.drop j c1state.kcpIn) :=
  ⟨by decide, by decide,
   c1_byte_passthrough [Dir.tcpToKcp, Dir.kcpToTcp, Dir.tcpToKcp, Dir.tcpToKcp]
     c1state (by decide) (by decide)⟩

/-- The Outcome Record logged for a session by `handle_session_result`.
Session identifiers (UUID strings in the source) are modelled as naturals
drawn from a counter. -/
inductive OutcomeRecord where
  | success (sid : Nat)
  | failure (sid : Nat)
deriving DecidableEq

/-- The session identifier carried by an Outcome Record. -/
def OutcomeRecord.sid : OutcomeRecord → Nat
  | OutcomeRecord.success s => s
  | OutcomeRecord.failure s => s

/-- The function `handle_session_result` (main.rs:151-162): an `Err` result
is logged as a failure ("occurred an error"), an `Ok` result as a success
("End of life."). -/
def handle_session_result (sid : Nat) : SessResult → OutcomeRecord
  | SessResult.err => OutcomeRecord.failure sid
  | SessResult.ok => OutcomeRecord.success sid

/-- Whether an operation closes a half. -/
def isClose : Op → Bool
  | Op.close _ => true
  | _ => false

/-- Whether an operation closes the given half. -/
def isCloseOf (x : Half) : Op → Bool
  | Op.close h2 => decide (h2 = x)
  | _ => false

/-- The complete operation trace of `handle_session`: the relay loop's
operations followed, once the loop has ended and the function returns, by
the implicit close of both halves — when `handle_session` returns, Rust
drops `tcp_stream` and `kcp_stream` exactly once each, and dropping a
stream closes it (the close signals end-of-output to the peer).  While the
loop is still running (result `none`) neither half has been dropped. -/
def sessionTrace (sch : List Dir) (s : RelayState) : List Op :=
  match (relayRun sch s).result with
  | none => (relayRun sch s).trace
  | some _ => (relayRun sch s).trace ++ [Op.close Half.tcp, Op.close Half.kcp]

lemma stepDir_no_close (d : Dir) (s : RelayState) :
    ∀ op ∈ (stepDir d s).ops, isClose op = false := by
  cases d with
  | tcpToKcp =>
    cases htcp : s.tcpIn with
    | nil => simp [stepDir, htcp]
    | cons ev rest =>
      cases ev with
      | rerr => simp [stepDir, htcp, isClose]
      | data c =>
        cases c with
        | nil => simp [stepDir, htcp, isClose]
        | cons b bs =>
          cases hw : s.kcpW.headD WOutcome.wok with
          | wok => simp [stepDir_t2k_data_wok s b bs rest htcp hw, isClose]
          | wfail => simp [stepDir_t2k_data_wfail s b bs rest htcp hw, isClose]
          | ffail => simp [stepDir_t2k_data_ffail s b bs rest htcp hw, isClose]
  | kcpToTcp =>
    cases hkcp : s.kcpIn with
    | nil => simp [stepDir, hkcp]
    | cons ev rest =>
      cases ev with
      | rerr => simp [stepDir, hkcp, isClose]
      | data c =>
        cases c with
        | nil => simp [stepDir, hkcp, isClose]
        | cons b bs =>
          cases hw : s.tcpW.headD WOutcome.wok with
          | wok => simp [stepDir_k2t_data_wok s b bs rest hkcp hw, isClose]
          | wfail => simp [stepDir_k2t_data_wfail s b bs rest hkcp hw, isClose]
          | ffail => simp [stepDir_k2t_data_ffail s b bs rest hkcp hw, isClose]

lemma relayRun_no_close (sch : List Dir) (s : RelayState) :
    ∀ op ∈ (relayRun sch s).trace, isClose op = false := by
  induction sch generalizing s with
  | nil => simp [relayRun]
  | cons d sch ih =>
    intro op hop
    rcases hctl : (stepDir d s).ctl with _ | r
    · rw [relayRun_cons_next d sch s hctl] at hop
      rcases List.mem_append.mp hop with h1 | h2
      · exact stepDir_no_close d s op h1
      · exact ih _ op h2
    · rw [relayRun_cons_done d sch s r hctl] at hop
      exact stepDir_no_close d s op hop

lemma countP_closeOf_eq_zero (l : List Op) (x : Half)
    (hl : ∀ op ∈ l, isClose op = false) :
    List.countP (isCloseOf x) l = 0 := by
  induction l with
  | nil => simp
  | cons op rest ih =>
    have h1 := hl op (List.mem_cons_self op rest)
    have h2 : isCloseOf x op = false := by
      cases op <;> simp_all [isClose, isCloseOf]
    simp [List.countP_cons, h2,
      ih (fun o ho => hl o (List.mem_cons_of_mem op ho))]

/-- C3: whenever the relay terminates — by end-of-stream or by a read,
write or flush error, from either direction — `handle_session` returns, so
both halves are torn down exactly once each: the session trace is the relay
trace followed by one close of the TCP half and one close of the KCP half,
the relay itself never closes a half, and each half is closed exactly once.
The closes come from Rust dropping the two stream values; a drop cannot
report an error, so teardown cannot alter the already-computed
success/failure result of the session. -/
theorem c3_teardown_both_halves_once (sch : List Dir) (s : RelayState)
    (r : SessResult) (h : (relayRun sch s).result = some r) :
    sessionTrace sch s =
      (relayRun sch s).trace ++ [Op.close Half.tcp, Op.close Half.kcp] ∧
    (∀ op ∈ (relayRun sch s).trace, isClose op = false) ∧
    List.countP (isCloseOf Half.tcp) (sessionTrace sch s) = 1 ∧
    List.countP (isCloseOf Half.kcp) (sessionTrace sch s) = 1 := by
  have htr : sessionTrace sch s =
      (relayRun sch s).trace ++ [Op.close Half.tcp, Op.close Half.kcp] := by
    unfold sessionTrace
    rw [h]
  refine ⟨htr, relayRun_no_close sch s, ?_, ?_⟩
  · rw [htr, List.countP_append,
      countP_closeOf_eq_zero _ _ (relayRun_no_close sch s)]
    decide
  · rw [htr, List.countP_append,
      countP_closeOf_eq_zero _ _ (relayRun_no_close sch s)]
    decide

/-- State for the C3 witness: the KCP half signals end-of-stream while the
TCP half still has data pending. -/
def c3state : RelayState :=
  ⟨[ReadEvent.data [7]], [ReadEvent.data []], [], [], [], []⟩

/-- Witness for C3 at a concrete input: a graceful close on the KCP half
terminates the session and each half is closed exactly once. -/
theorem c3_teardown_both_halves_once_witness :
    (relayRun [Dir.kcpToTcp] c3state).result = some SessResult.ok ∧
    List.countP (isCloseOf Half.tcp) (sessionTrace [Dir.kcpToTcp] c3state) = 1 ∧
    List.countP (isCloseOf Half.kcp) (sessionTrace [Dir.kcpToTcp] c3state) = 1 :=
  ⟨rfl,
   (c3_teardown_both_halves_once [Dir.kcpToTcp] c3state SessResult.ok rfl).2.2.1,
   (c3_teardown_both_halves_once [Dir.kcpToTcp] c3state SessResult.ok rfl).2.2.2⟩

/-- Whether an operation is a failed write or a failed flush. -/
def isWFail : Op → Bool
  | Op.writeErr _ => true
  | Op.flushErr _ => true
  | _ => false

lemma relay_err_iff_wfail (sch : List Dir) (s : RelayState) :
    (relayRun sch s).result = some SessResult.err ↔
      (relayRun sch s).trace.any isWFail = true := by
  induction sch generalizing s with
  | nil => simp [relayRun]
  | cons d sch ih =>
    cases d with
    | tcpToKcp =>
      cases htcp : s.tcpIn with
      | nil =>
        rw [relayRun_cons_next _ _ _ (by rw [stepDir_t2k_nil s htcp]),
          stepDir_t2k_nil s htcp]
        simpa using ih s
      | cons ev rest =>
        cases ev with
        | rerr =>
          rw [relayRun_cons_done _ _ _ _ (by rw [stepDir_t2k_rerr s rest htcp]),
            stepDir_t2k_rerr s rest htcp]
          simp [isWFail]
        | data c =>
          cases c with
          | nil =>
            rw [relayRun_cons_done _ _ _ _ (by rw [stepDir_t2k_eof s rest htcp]),
              stepDir_t2k_eof s rest htcp]
            simp [isWFail]
          | cons b bs =>
            cases hw : s.kcpW.headD WOutcome.wok with
            | wok =>
              rw [relayRun_cons_next _ _ _
                  (by rw [stepDir_t2k_data_wok s b bs rest htcp hw]),
                stepDir_t2k_data_wok s b bs rest htcp hw]
              simpa [isWFail] using ih _
            | wfail =>
              rw [relayRun_cons_done _ _ _ _
                  (by rw [stepDir_t2k_data_wfail s b bs rest htcp hw]),
                stepDir_t2k_data_wfail s b bs rest htcp hw]
              simp [isWFail]
            | ffail =>
              rw [relayRun_cons_done _ _ _ _
                  (by rw [stepDir_t2k_data_ffail s b bs rest htcp hw]),
                stepDir_t2k_data_ffail s b bs rest htcp hw]
              simp [isWFail]
    | kcpToTcp =>
      cases hkcp : s.kcpIn with
      | nil =>
        rw [relayRun_cons_next _ _ _ (by rw [stepDir_k2t_nil s hkcp]),
          stepDir_k2t_nil s hkcp]
        simpa using ih s
      | cons ev rest =>
        cases ev with
        | rerr =>
          rw [relayRun_cons_done _ _ _ _ (by rw [stepDir_k2t_rerr s rest hkcp]),
            stepDir_k2t_rerr s rest hkcp]
          simp [isWFail]
        | data c =>
          cases c with
          | nil =>
            rw [relayRun_cons_done _ _ _ _ (by rw [stepDir_k2t_eof s rest hkcp]),
              stepDir_k2t_eof s rest hkcp]
            simp [isWFail]
          | cons b bs =>
            cases hw : s.tcpW.headD WOutcome.wok with
            | wok =>
              rw [relayRun_cons_next _ _ _
                  (by rw [stepDir_k2t_data_wok s b bs rest hkcp hw]),
                stepDir_k2t_data_wok s b bs rest hkcp hw]
              simpa [isWFail] using ih _
            | wfail =>
              rw [relayRun_cons_done _ _ _ _
                  (by rw [stepDir_k2t_data_wfail s b bs rest hkcp hw]),
                stepDir_k2t_data_wfail s b bs rest hkcp hw]
              simp [isWFail]
            | ffail =>
              rw [relayRun_cons_done _ _ _ _
                  (by rw [stepDir_k2t_data_ffail s b bs rest hkcp hw]),
                stepDir_k2t_data_ffail s b bs rest hkcp hw]
              simp [isWFail]

/-- C4 (amended): the Outcome Record classifies a session as a failure
exactly when a write or flush error terminated the relay; end-of-stream AND
read errors both end the loop with `Ok(())` and are recorded as success.
The original claim is wrong about read errors: a read error is logged and
then `break`s, so `handle_session` returns `Ok(())` and the record is a
success (see the counterexample). -/
theorem c4_failure_iff_write_or_flush_error (sch : List Dir) (s : RelayState) :
    ((relayRun sch s).result = some SessResult.err ↔
      (relayRun sch s).trace.any isWFail = true) ∧
    (∀ sid r2, handle_session_result sid r2 = OutcomeRecord.failure sid ↔
      r2 = SessResult.err) := by
  refine ⟨relay_err_iff_wfail sch s, ?_⟩
  intro sid r2
  cases r2 <;> simp [handle_session_result]

/-- State for the C4 counterexample: the TCP half reports a read error. -/
def c4state : RelayState :=
  ⟨[ReadEvent.rerr], [], [], [], [], []⟩

/-- Counterexample to C4 as stated: a true I/O error — a read error on the
TCP half — terminates the relay, yet `handle_session` returns `Ok(())` and
`handle_session_result` records the session as a success ("End of life."),
so an I/O error IS recorded as a success. -/
theorem c4_counterexample :
    c4state.tcpIn = [ReadEvent.rerr] ∧
    (relayRun [Dir.tcpToKcp] c4state).trace = [Op.read Half.tcp ReadEvent.rerr] ∧
    (relayRun [Dir.tcpToKcp] c4state).result = some SessResult.ok ∧
    handle_session_result 0 SessResult.ok = OutcomeRecord.success 0 :=
  ⟨rfl, rfl, rfl, rfl⟩

/-- Wellformedness of a read result: the relay reads into a fixed 4096-byte
buffer (`[0; 4096]`, main.rs:111-112), so a successful read returns at most
4096 bytes. -/
def evWF : ReadEvent → Bool
  | ReadEvent.data c => decide (c.length ≤ 4096)
  | ReadEvent.rerr => true

/-- Structure checker for a relay trace.  A wellformed trace is a sequence
of complete iterations — a read of a nonempty chunk on one half immediately
followed by a write of exactly that chunk and a flush, both on the opposite
half — optionally ended by one terminal iteration: a zero-length read, a
read error, a read followed by a failed write, or a read followed by a full
write and a failed flush.  Every chunk read is at most 4096 bytes.  In
particular no read is issued before the previous chunk is fully written and
flushed, no partially-written chunk survives an iteration, and each
iteration makes progress in exactly one direction. -/
def traceWF : List Op → Bool
  | [] => true
  | Op.read x (ReadEvent.data (b :: bs)) :: Op.write x2 c :: Op.flush x3 :: rest =>
      decide (x2 = otherHalf x) && decide (x3 = x2) && decide (c = b :: bs) &&
      decide ((b :: bs).length ≤ 4096) && traceWF rest
  | [Op.read _ (ReadEvent.data [])] => true
  | [Op.read _ ReadEvent.rerr] => true
  | [Op.read x (ReadEvent.data (b :: bs)), Op.writeErr x2] =>
      decide (x2 = otherHalf x) && decide ((b :: bs).length ≤ 4096)
  | [Op.read x (ReadEvent.data (b :: bs)), Op.write x2 c, Op.flushErr x3] =>
      decide (x2 = otherHalf x) && decide (x3 = x2) && decide (c = b :: bs) &&
      decide ((b :: bs).length ≤ 4096)
  | _ => false

/-- C10: when every read result respects the 4096-byte buffer bound, the
relay's operation trace is wellformed in the sense of `traceWF`: each chunk
is at most 4096 bytes and is written in full and flushed to the opposite
half before any further read is issued on either half, between iterations
no partially-written chunk exists, and each iteration serves exactly one
direction. -/
theorem c10_chunked_alternation (sch : List Dir) (s : RelayState)
    (h1 : ∀ ev ∈ s.tcpIn, evWF ev = true)
    (h2 : ∀ ev ∈ s.kcpIn, evWF ev = true) :
    traceWF (relayRun sch s).trace = true := by
  induction sch generalizing s with
  | nil => simp [relayRun, traceWF]
  | cons d sch ih =>
    cases d with
    | tcpToKcp =>
      cases htcp : s.tcpIn with
      | nil =>
        rw [relayRun_cons_next _ _ _ (by rw [stepDir_t2k_nil s htcp]),
          stepDir_t2k_nil s htcp]
        simpa using ih s h1 h2
      | cons ev rest =>
        have h1r : ∀ e ∈ rest, evWF e = true :=
          fun e he => h1 e (by rw [htcp]; exact List.mem_cons_of_mem ev he)
        have h1h : evWF ev = true := h1 ev (by rw [htcp]; exact List.mem_cons_self ev rest)
        cases ev with
        | rerr =>
          rw [relayRun_cons_done _ _ _ _ (by rw [stepDir_t2k_rerr s rest htcp]),
            stepDir_t2k_rerr s rest htcp]
          simp [traceWF]
        | data c =>
          have hlen : c.length ≤ 4096 := by simpa [evWF] using h1h
          cases c with
          | nil =>
            rw [relayRun_cons_done _ _ _ _ (by rw [stepDir_t2k_eof s rest htcp]),
              stepDir_t2k_eof s rest htcp]
            simp [traceWF]
          | cons b bs =>
            cases hw : s.kcpW.headD WOutcome.wok with
            | wok =>
              rw [relayRun_cons_next _ _ _
                  (by rw [stepDir_t2k_data_wok s b bs rest htcp hw]),
                stepDir_t2k_data_wok s b bs rest htcp hw]
              have := ih { s with tcpIn := rest, kcpW := s.kcpW.tail,
                                  toKcp := s.toKcp ++ (b :: bs) } h1r h2
              simp [traceWF, otherHalf, this]
              simp at hlen
              omega
            | wfail =>
              rw [relayRun_cons_done _ _ _ _
                  (by rw [stepDir_t2k_data_wfail s b bs rest htcp hw]),
                stepDir_t2k_data_wfail s b bs rest htcp hw]
              simp [traceWF, otherHalf]
              simp at hlen
              omega
            | ffail =>
              rw [relayRun_cons_done _ _ _ _
                  (by rw [stepDir_t2k_data_ffail s b bs rest htcp hw]),
                stepDir_t2k_data_ffail s b bs rest htcp hw]
              simp [traceWF, otherHalf]
              simp at hlen
              omega
    | kcpToTcp =>
      cases hkcp : s.kcpIn with
      | nil =>
        rw [relayRun_cons_next _ _ _ (by rw [stepDir_k2t_nil s hkcp]),
          stepDir_k2t_nil s hkcp]
        simpa using ih s h1 h2
      | cons ev rest =>
        have h2r : ∀ e ∈ rest, evWF e = true :=
          fun e he => h2 e (by rw [hkcp]; exact List.mem_cons_of_mem ev he)
        have h2h : evWF ev = true := h2 ev (by rw [hkcp]; exact List.mem_cons_self ev rest)
        cases ev with
        | rerr =>
          rw [relayRun_cons_done _ _ _ _ (by rw [stepDir_k2t_rerr s rest hkcp]),
            stepDir_k2t_rerr s rest hkcp]
          simp [traceWF]
        | data c =>
          have hlen : c.length ≤ 4096 := by simpa [evWF] using h2h
          cases c with
          | nil =>
            rw [relayRun_cons_done _ _ _ _ (by rw [stepDir_k2t_eof s rest hkcp]),
              stepDir_k2t_eof s rest hkcp]
            simp [traceWF]
          | cons b bs =>
            cases hw : s.tcpW.headD WOutcome.wok with
            | wok =>
              rw [relayRun_cons_next _ _ _
                  (by rw [stepDir_k2t_data_wok s b bs rest hkcp hw]),
                stepDir_k2t_data_wok s b bs rest hkcp hw]
              have := ih { s with kcpIn := rest, tcpW := s.tcpW.tail,
                                  toTcp := s.toTcp ++ (b :: bs) } h1 h2r
              simp [traceWF, otherHalf, this]
              simp at hlen
              omega
            | wfail =>
              rw [relayRun_cons_done _ _ _ _
                  (by rw [stepDir_k2t_data_wfail s b bs rest hkcp hw]),
                stepDir_k2t_data_wfail s b bs rest hkcp hw]
              simp [traceWF, otherHalf]
              simp at hlen
              omega
            | ffail =>
              rw [relayRun_cons_done _ _ _ _
                  (by rw [stepDir_k2t_data_ffail s b bs rest hkcp hw]),
                stepDir_k2t_data_ffail s b bs rest hkcp hw]
              simp [traceWF, otherHalf]
              simp at hlen
              omega

/-- State for the C10 witness: one data chunk in each direction, then TCP
end-of-stream. -/
def c10state : RelayState :=
  ⟨[ReadEvent.data [1, 2, 3], ReadEvent.data []], [ReadEvent.data [4]],
   [], [], [], []⟩

/-- Witness for C10 at a concrete input. -/
theorem c10_chunked_alternation_witness :
    (∀ ev ∈ c10state.tcpIn, evWF ev = true) ∧
    (∀ ev ∈ c10state.kcpIn, evWF ev = true) ∧
    traceWF (relayRun [Dir.tcpToKcp, Dir.kcpToTcp, Dir.tcpToKcp]
      c10state).trace = true :=
  ⟨by decide, by decide,
   c10_chunked_alternation [Dir.tcpToKcp, Dir.kcpToTcp, Dir.tcpToKcp]
     c10state (by decide) (by decide)⟩

/-- Environment of one accepted session: whether the outbound dial succeeds
(`TcpStream::connect` in `run_server`, `KcpUdpStream::connect` in
`run_client`), and — when it does — the schedule, read events and write
oracles driving that session's relay. -/
structure SessionSpec where
  dialOk : Bool
  sch : List Dir
  tcpIn : List ReadEvent
  kcpIn : List ReadEvent
  tcpW : List WOutcome
  kcpW : List WOutcome
deriving DecidableEq

/-- The relay state of a freshly established session: no bytes written yet. -/
def SessionSpec.initState (sp : SessionSpec) : RelayState :=
  ⟨sp.tcpIn, sp.kcpIn, sp.tcpW, sp.kcpW, [], []⟩

/-- One event at an accept loop: `conn` is a successful `accept` (for
`run_client` the flag says whether the subsequent `peer_addr()` call
succeeds; `run_server` performs no such fallible call), `aerr` is an
`accept` that returns `Err`. -/
inductive AcceptEvent where
  | conn (peerOk : Bool) (sp : SessionSpec)
  | aerr
deriving DecidableEq

/-- Observable per-session operations of an accept loop: the single dial
attempt made for an accepted session, the Outcome Record emitted by
`handle_session_result`, and the dial-failure log line. -/
inductive LoopOp where
  | dial (sid : Nat) (ok : Bool)
  | outcome (rec : OutcomeRecord)
  | dialFailLog (sid : Nat)
deriving DecidableEq

/-- The session identifier an observable operation refers to. -/
def LoopOp.sid : LoopOp → Nat
  | LoopOp.dial s _ => s
  | LoopOp.outcome rec => rec.sid
  | LoopOp.dialFailLog s => s

/-- How an accept loop stops being productive: `acceptError` is an `Err`
from `accept` propagated by `?` out of the loop, `peerAddrError` is an
`Err` from `tcp_stream.peer_addr()` propagated by `?` (only possible in
`run_client`), `pending` means the modelled event list is exhausted while
the loop is still blocked in `accept` (the loop itself is unbounded). -/
inductive LoopExit where
  | acceptError
  | peerAddrError
  | pending
deriving DecidableEq

/-- Whether a loop exit propagates out of `run_server`/`run_client`: both
error exits make the function return `Err`, which `main` re-raises with
`?`, terminating the process with a non-zero exit. -/
def loopExitFatal : LoopExit → Bool
  | LoopExit.acceptError => true
  | LoopExit.peerAddrError => true
  | LoopExit.pending => false

/-- Result of running an accept loop over a list of accept events. -/
structure LoopRun where
  ops : List LoopOp
  exit : LoopExit
deriving DecidableEq

/-- The observable operations of one dispatched session task
(main.rs:63-74 and main.rs:91-102): exactly one dial attempt; on dial
success the relay runs and, when it terminates, `handle_session_result` is
invoked exactly once with its result (if the relay never terminates the
task is still running and nothing further is emitted); on dial failure the
failure is logged with the session identifier and no session is created. -/
def sessionOps (sid : Nat) (sp : SessionSpec) : List LoopOp :=
  if sp.dialOk then
    match (relayRun sp.sch sp.initState).result with
    | some r => [LoopOp.dial sid true, LoopOp.outcome (handle_session_result sid r)]
    | none => [LoopOp.dial sid true]
  else [LoopOp.dial sid false, LoopOp.dialFailLog sid]

/-- The accept loop of `run_server` (main.rs:54-75): accept a KCP session
(an `Err` from `accept` propagates out of the loop), generate a fresh
session identifier (a UUID in the source, modelled by a counter), and
dispatch the session task.  Tasks share no state with the loop, so the
model runs each task inline. -/
def run_server_loop (sid : Nat) : List AcceptEvent → LoopRun
  | [] => ⟨[], LoopExit.pending⟩
  | AcceptEvent.aerr :: _ => ⟨[], LoopExit.acceptError⟩
  | AcceptEvent.conn _ sp :: rest =>
    ⟨sessionOps sid sp ++ (run_server_loop (sid + 1) rest).ops,
     (run_server_loop (sid + 1) rest).exit⟩

/-- The accept loop of `run_client` (main.rs:81-103): generate a fresh
session identifier, accept a TCP connection (an `Err` from `accept`
propagates out of the loop), query `peer_addr()` for the log line (an `Err`
propagates out of the loop as well), and dispatch the session task. -/
def run_client_loop (sid : Nat) : List AcceptEvent → LoopRun
  | [] => ⟨[], LoopExit.pending⟩
  | AcceptEvent.aerr :: _ => ⟨[], LoopExit.acceptError⟩
  | AcceptEvent.conn peerOk sp :: rest =>
    if peerOk then
      ⟨sessionOps sid sp ++ (run_client_loop (sid + 1) rest).ops,
       (run_client_loop (sid + 1) rest).exit⟩
    else ⟨[], LoopExit.peerAddrError⟩

lemma sessionOps_sid (sid : Nat) (sp : SessionSpec) :
    ∀ op ∈ sessionOps sid sp, op.sid = sid := by
  unfold sessionOps
  rcases sp.dialOk with _ | _
  · simp [LoopOp.sid]
  · rcases (relayRun sp.sch sp.initState).result with _ | r
    · simp [LoopOp.sid]
    · cases r <;> simp [LoopOp.sid, handle_session_result, OutcomeRecord.sid]

lemma run_server_loop_sid_ge (evs : List AcceptEvent) (sid : Nat) :
    ∀ op ∈ (run_server_loop sid evs).ops, sid ≤ op.sid := by
  induction evs generalizing sid with
  | nil => simp [run_server_loop]
  | cons e rest ih =>
    cases e with
    | aerr => simp [run_server_loop]
    | conn peerOk sp =>
      intro op hop
      rcases List.mem_append.mp (by simpa [run_server_loop] using hop) with h1 | h2
      · exact (sessionOps_sid sid sp op h1).ge
      · exact Nat.le_of_succ_le (ih (sid + 1) op h2)

lemma run_client_loop_sid_ge (evs : List AcceptEvent) (sid : Nat) :
    ∀ op ∈ (run_client_loop sid evs).ops, sid ≤ op.sid := by
  induction evs generalizing sid with
  | nil => simp [run_client_loop]
  | cons e rest ih =>
    cases e with
    | aerr => simp [run_client_loop]
    | conn peerOk sp =>
      intro op hop
      cases peerOk with
      | false => simp [run_client_loop] at hop
      | true =>
        rcases List.mem_append.mp (by simpa [run_client_loop] using hop) with h1 | h2
        · exact (sessionOps_sid sid sp op h1).ge
        · exact Nat.le_of_succ_le (ih (sid + 1) op h2)

/-- Predicate: an emitted Outcome Record for the given session identifier. -/
def isOutcomeSid (sid : Nat) : LoopOp → Bool
  | LoopOp.outcome rec => decide (rec.sid = sid)
  | _ => false

/-- Predicate: a dial attempt for the given session identifier. -/
def isDialSid (sid : Nat) : LoopOp → Bool
  | LoopOp.dial s _ => decide (s = sid)
  | _ => false

lemma countP_eq_zero_of_sid_gt (p : Nat → LoopOp → Bool) (sid : Nat)
    (hp : ∀ op, p sid op = true → op.sid = sid)
    (l : List LoopOp) (hl : ∀ op ∈ l, sid + 1 ≤ op.sid) :
    List.countP (p sid) l = 0 := by
  induction l with
  | nil => simp
  | cons op rest ih =>
    have h1 : p sid op = false := by
      rcases hq : p sid op with _ | _
      · rfl
      · have := hp op hq
        have h2 := hl op (List.mem_cons_self op rest)
        omega
    simp [List.countP_cons, h1,
      ih (fun o ho => hl o (List.mem_cons_of_mem op ho))]

lemma isOutcomeSid_sid (sid : Nat) : ∀ op, isOutcomeSid sid op = true → op.sid = sid := by
  intro op
  cases op <;> simp [isOutcomeSid, LoopOp.sid]

lemma isDialSid_sid (sid : Nat) : ∀ op, isDialSid sid op = true → op.sid = sid := by
  intro op
  cases op <;> simp [isDialSid, LoopOp.sid]

lemma countP_dial_sessionOps (sid : Nat) (sq : SessionSpec) :
    List.countP (isDialSid sid) (sessionOps sid sq) = 1 := by
  unfold sessionOps
  cases hd : sq.dialOk with
  | false => simp [isDialSid]
  | true =>
    cases hr : (relayRun sq.sch sq.initState).result with
    | none => simp [isDialSid]
    | some r => cases r <;> simp [isDialSid, handle_session_result]

/-- C8: for every session that was created — the dial succeeded, so both
halves are paired — exactly one Outcome Record is emitted once its relay
terminates, whichever half failed first, in both accept loops.  The loop's
reachable states are exactly `(sid, remaining events)` pairs, so placing
the session at the head of the remaining events is fully general; all
operations emitted for later sessions carry strictly larger identifiers, so
the count over the rest of the run is zero. -/
theorem c8_exactly_one_outcome_record (sid : Nat) (sp : SessionSpec)
    (evs : List AcceptEvent) (r : SessResult)
    (h1 : sp.dialOk = true)
    (h2 : (relayRun sp.sch sp.initState).result = some r) :
    List.countP (isOutcomeSid sid)
      (run_server_loop sid (AcceptEvent.conn true sp :: evs)).ops = 1 ∧
    List.countP (isOutcomeSid sid)
      (run_client_loop sid (AcceptEvent.conn true sp :: evs)).ops = 1 := by
  have hsess : sessionOps sid sp =
      [LoopOp.dial sid true, LoopOp.outcome (handle_session_result sid r)] := by
    simp [sessionOps, h1, h2]
  have hone : List.countP (isOutcomeSid sid) (sessionOps sid sp) = 1 := by
    rw [hsess]
    cases r <;> simp [isOutcomeSid, handle_session_result, OutcomeRecord.sid]
  constructor
  · have hz := countP_eq_zero_of_sid_gt isOutcomeSid sid (isOutcomeSid_sid sid)
      (run_server_loop (sid + 1) evs).ops (run_server_loop_sid_ge evs (sid + 1))
    simp [run_server_loop, List.countP_append, hone, hz]
  · have hz := countP_eq_zero_of_sid_gt isOutcomeSid sid (isOutcomeSid_sid sid)
      (run_client_loop (sid + 1) evs).ops (run_client_loop_sid_ge evs (sid + 1))
    simp [run_client_loop, List.countP_append, hone, hz]

/-- Session environment for the C8 witness: dial succeeds and the TCP half
immediately signals end-of-stream. -/
def c8spec : SessionSpec :=
  ⟨true, [Dir.tcpToKcp], [ReadEvent.data []], [], [], []⟩

/-- Witness for C8 at a concrete input. -/
theorem c8_exactly_one_outcome_record_witness :
    c8spec.dialOk = true ∧
    (relayRun c8spec.sch c8spec.initState).result = some SessResult.ok ∧
    List.countP (isOutcomeSid 0)
      (run_server_loop 0 [AcceptEvent.conn true c8spec]).ops = 1 ∧
    List.countP (isOutcomeSid 0)
      (run_client_loop 0 [AcceptEvent.conn true c8spec]).ops = 1 :=
  ⟨rfl, rfl,
   (c8_exactly_one_outcome_record 0 c8spec [] SessResult.ok rfl rfl).1,
   (c8_exactly_one_outcome_record 0 c8spec [] SessResult.ok rfl rfl).2⟩

/-- C9: for every accepted connection or session, in both accept loops, the
outbound dial is attempted exactly once (first conjunct, for an arbitrary
session environment).  When the dial fails: the loop's observable
operations for that session are exactly the single failed dial attempt and
the failure log carrying the freshly generated session identifier, no
Outcome Record is emitted for it (no session is created), and the rest of
the loop — operations and exit — is exactly what it would be for the
subsequent events, so the acceptor keeps accepting and establishing
sessions unaffected. -/
theorem c9_single_dial_failure_isolated (sid : Nat) (evs : List AcceptEvent)
    (sp : SessionSpec) (h : sp.dialOk = false) :
    (∀ sq : SessionSpec,
      List.countP (isDialSid sid)
        (run_server_loop sid (AcceptEvent.conn true sq :: evs)).ops = 1 ∧
      List.countP (isDialSid sid)
        (run_client_loop sid (AcceptEvent.conn true sq :: evs)).ops = 1) ∧
    (run_server_loop sid (AcceptEvent.conn true sp :: evs)).ops =
      LoopOp.dial sid false :: LoopOp.dialFailLog sid ::
        (run_server_loop (sid + 1) evs).ops ∧
    (run_server_loop sid (AcceptEvent.conn true sp :: evs)).exit =
      (run_server_loop (sid + 1) evs).exit ∧
    (run_client_loop sid (AcceptEvent.conn true sp :: evs)).ops =
      LoopOp.dial sid false :: LoopOp.dialFailLog sid ::
        (run_client_loop (sid + 1) evs).ops ∧
    (run_client_loop sid (AcceptEvent.conn true sp :: evs)).exit =
      (run_client_loop (sid + 1) evs).exit ∧
    List.countP (isOutcomeSid sid)
      (run_server_loop sid (AcceptEvent.conn true sp :: evs)).ops = 0 ∧
    List.countP (isOutcomeSid sid)
      (run_client_loop sid (AcceptEvent.conn true sp :: evs)).ops = 0 := by
  have hsess : sessionOps sid sp = [LoopOp.dial sid false, LoopOp.dialFailLog sid] := by
    simp [sessionOps, h]
  have hzs := countP_eq_zero_of_sid_gt isOutcomeSid sid (isOutcomeSid_sid sid)
    (run_server_loop (sid + 1) evs).ops (run_server_loop_sid_ge evs (sid + 1))
  have hzc := countP_eq_zero_of_sid_gt isOutcomeSid sid (isOutcomeSid_sid sid)
    (run_client_loop (sid + 1) evs).ops (run_client_loop_sid_ge evs (sid + 1))
  refine ⟨?_, ?_, rfl, ?_, rfl, ?_, ?_⟩
  · intro sq
    have h1 := countP_dial_sessionOps sid sq
    have hzs2 := countP_eq_zero_of_sid_gt isDialSid sid (isDialSid_sid sid)
      (run_server_loop (sid + 1) evs).ops (run_server_loop_sid_ge evs (sid + 1))
    have hzc2 := countP_eq_zero_of_sid_gt isDialSid sid (isDialSid_sid sid)
      (run_client_loop (sid + 1) evs).ops (run_client_loop_sid_ge evs (sid + 1))
    exact ⟨by simp [run_server_loop, List.countP_append, h1, hzs2],
           by simp [run_client_loop, List.countP_append, h1, hzc2]⟩
  · simp [run_server_loop, hsess]
  · simp [run_client_loop, hsess]
  · simp [run_server_loop, List.countP_append, hsess, isOutcomeSid, hzs]
  · simp [run_client_loop, List.countP_append, hsess, isOutcomeSid, hzc]

/-- Session environment for the C9 witness: the dial fails. -/
def c9spec : SessionSpec := ⟨false, [], [], [], [], []⟩

/-- Witness for C9 at a concrete input: the failed dial is attempted once,
logged with its session identifier, and nothing else is emitted for it. -/
theorem c9_single_dial_failure_isolated_witness :
    c9spec.dialOk = false ∧
    (run_server_loop 0 [AcceptEvent.conn true c9spec]).ops =
      [LoopOp.dial 0 false, LoopOp.dialFailLog 0] ∧
    (run_client_loop 0 [AcceptEvent.conn true c9spec]).ops =
      [LoopOp.dial 0 false, LoopOp.dialFailLog 0] :=
  ⟨rfl,
   by simpa [run_server_loop]
     using (c9_single_dial_failure_isolated 0 [] c9spec rfl).2.1,
   by simpa [run_client_loop]
     using (c9_single_dial_failure_isolated 0 [] c9spec rfl).2.2.2.1⟩

/-- C6 (amended): per-session errors inside a dispatched session task —
dial failures and relay read/write/flush errors — never affect the accept
loop's control flow or the process: an accepted connection's entire session
environment is irrelevant to the loop's exit.  However, contrary to the
original claim that only startup-time bind/listen errors are fatal, two
loop-time errors also propagate to process exit with `?`: an `Err` from
`accept` (both loops, main.rs:56 and main.rs:84), and an `Err` from
`tcp_stream.peer_addr()` on an accepted connection (main.rs:87,
`run_client` only). -/
theorem c6_containment_amended :
    (∀ (sid : Nat) (sp : SessionSpec) (evs : List AcceptEvent),
      (run_server_loop sid (AcceptEvent.conn true sp :: evs)).exit =
        (run_server_loop (sid + 1) evs).exit) ∧
    (∀ (sid : Nat) (sp : SessionSpec) (evs : List AcceptEvent),
      (run_client_loop sid (AcceptEvent.conn true sp :: evs)).exit =
        (run_client_loop (sid + 1) evs).exit) ∧
    (∀ (sid : Nat) (evs : List AcceptEvent),
      (run_server_loop sid (AcceptEvent.aerr :: evs)).exit = LoopExit.acceptError ∧
      (run_client_loop sid (AcceptEvent.aerr :: evs)).exit = LoopExit.acceptError) ∧
    (∀ (sid : Nat) (sp : SessionSpec) (evs : List AcceptEvent),
      (run_client_loop sid (AcceptEvent.conn false sp :: evs)).exit =
        LoopExit.peerAddrError) ∧
    loopExitFatal LoopExit.acceptError = true ∧
    loopExitFatal LoopExit.peerAddrError = true :=
  ⟨fun _ _ _ => rfl, fun _ _ _ => rfl, fun _ _ => ⟨rfl, rfl⟩,
   fun _ _ _ => rfl, rfl, rfl⟩

/-- Session environment for the C6 counterexample's peer-address case. -/
def c6spec : SessionSpec := ⟨true, [], [], [], [], []⟩

/-- Counterexample to C6 as stated: not only startup-time bind/listen
errors propagate to process exit — an `Err` from `accept` inside the loop
makes `run_server`/`run_client` return `Err`, which `main` re-raises,
terminating the process; likewise a `peer_addr()` error on an accepted
connection in `run_client`. -/
theorem c6_counterexample :
    (run_server_loop 0 [AcceptEvent.aerr]).exit = LoopExit.acceptError ∧
    (run_client_loop 0 [AcceptEvent.aerr]).exit = LoopExit.acceptError ∧
    (run_client_loop 0 [AcceptEvent.conn false c6spec]).exit =
      LoopExit.peerAddrError ∧
    loopExitFatal LoopExit.acceptError = true ∧
    loopExitFatal LoopExit.peerAddrError = true :=
  ⟨rfl, rfl, rfl, rfl, rfl⟩

/-- The parsed argument record (struct Args, main.rs:8-25). -/
structure Args where
  server : Bool
  client : Bool
  proxy_addr : String
  listen_addr : String
deriving DecidableEq

/-- A command line: which mode flags appear on it, and the values given for
the two address options (`none` = absent). -/
structure Cli where
  serverFlag : Bool
  clientFlag : Bool
  proxyAddrOpt : Option String
  listenAddrOpt : Option String
deriving DecidableEq

/-- Result of argument parsing: clap either rejects the command line (it
prints a usage error and exits non-zero before `main`'s body runs) or
yields an `Args` value. -/
inductive ParseOutcome where
  | usageError
  | parsed (a : Args)
deriving DecidableEq

/-- Clap parsing as derived for struct Args (main.rs:8-25).  `server` and
`client` are flags placed in the same argument group "mode", so giving both
on the command line is a usage error; a defaulted value is not counted as a
group member, so giving one flag or neither parses.  `client` is declared
with `default_value_t = true` and its flag can only set it to true, hence
the parsed `client` field is always true, whatever the command line.
`proxy_addr` is required (missing value is a usage error); `listen_addr`
defaults to "0.0.0.0:25565" (main.rs:23). -/
def argsParse (c : Cli) : ParseOutcome :=
  if c.serverFlag && c.clientFlag then ParseOutcome.usageError
  else
    match c.proxyAddrOpt with
    | none => ParseOutcome.usageError
    | some p =>
      ParseOutcome.parsed
        { server := c.serverFlag
          client := true
          proxy_addr := p
          listen_addr := c.listenAddrOpt.getD "0.0.0.0:25565" }

/-- The transport a role binds its listener on, or dials with. -/
inductive Transport where
  | tcp
  | udp
deriving DecidableEq

/-- What the process does after startup.  `usageExit`: clap rejected the
command line, non-zero exit, no accept loop.  `modeErrorExit0`: the branch
`if !args.client && !args.server` (main.rs:31) prints "Error: You should
specify one mode" but then falls through to `Ok(())`, so the process exits
with code 0.  `runs listen dial`: the process enters an accept loop binding
a listener on `listen` at listen_addr and dialing `dial` at proxy_addr per
accepted session. -/
inductive MainOutcome where
  | usageExit
  | modeErrorExit0
  | runs (listen : Transport) (dial : Transport)
deriving DecidableEq

/-- The dispatch in `main` (main.rs:28-42): when `args.client` is true it
calls `run_server`, which binds a UDP socket at listen_addr, wraps it into
a KCP session listener and dials proxy_addr over TCP per accepted session
(main.rs:44-47, main.rs:64); otherwise it calls `run_client`, which binds a
TCP listener at listen_addr and dials proxy_addr over KCP per accepted
connection (main.rs:78-79, main.rs:92). -/
def mainRun (c : Cli) : MainOutcome :=
  match argsParse c with
  | ParseOutcome.usageError => MainOutcome.usageExit
  | ParseOutcome.parsed a =>
    if !a.client && !a.server then MainOutcome.modeErrorExit0
    else if a.client then MainOutcome.runs Transport.udp Transport.tcp
    else MainOutcome.runs Transport.tcp Transport.udp

/-- Whether the process exits with a non-zero code in this outcome. -/
def exitNonzero : MainOutcome → Bool
  | MainOutcome.usageExit => true
  | MainOutcome.modeErrorExit0 => false
  | MainOutcome.runs _ _ => false

/-- Whether the process enters an accept loop in this outcome. -/
def entersLoop : MainOutcome → Bool
  | MainOutcome.runs _ _ => true
  | _ => false

/-- A client-role command line: no mode flag (client is the default),
a proxy address, no listen address. -/
def cliClient : Cli := ⟨false, false, some "10.0.0.1:7000", none⟩

/-- C2, what the code actually does at the claimed inputs: the default
listen address is "0.0.0.0:25565" as claimed, but in client role (default,
and likewise with an explicit `--client`) the process binds a UDP
packet-transport listener and dials TCP per session — not a TCP stream
listener dialing the tunnel, as the claim states — because `main` wires
`args.client` to `run_server`.  Moreover `--server` leaves `client` true
(its default), so that command line takes the same `run_server` path and
the TCP-listener branch (`run_client`) is unreachable. -/
theorem c2_client_mode_binds_udp :
    argsParse cliClient =
      ParseOutcome.parsed ⟨false, true, "10.0.0.1:7000", "0.0.0.0:25565"⟩ ∧
    mainRun cliClient = MainOutcome.runs Transport.udp Transport.tcp ∧
    mainRun ⟨false, true, some "10.0.0.1:7000", none⟩ =
      MainOutcome.runs Transport.udp Transport.tcp ∧
    mainRun ⟨true, false, some "10.0.0.1:7000", none⟩ =
      MainOutcome.runs Transport.udp Transport.tcp ∧
    Transport.udp ≠ Transport.tcp :=
  ⟨rfl, rfl, rfl, rfl, by decide⟩

/-- A command line with no mode flag. -/
def cliNoMode : Cli := ⟨false, false, some "198.51.100.7:9000", none⟩

/-- Counterexample to C5 as stated: with NEITHER `--server` nor `--client`
on the command line, startup is not rejected — `client` defaults to true,
so the process enters the (UDP-binding) accept loop with exit behavior of
a normal run, not a non-zero usage-error exit. -/
theorem c5_counterexample :
    mainRun cliNoMode = MainOutcome.runs Transport.udp Transport.tcp ∧
    entersLoop (mainRun cliNoMode) = true ∧
    exitNonzero (mainRun cliNoMode) = false :=
  ⟨rfl, rfl, rfl⟩

/-- A command line passing both mode flags. -/
def cliBothModes : Cli := ⟨true, true, some "198.51.100.7:9000", none⟩

/-- C5 (amended): passing BOTH `--server` and `--client` is rejected by
clap's argument group with a usage error and non-zero exit, before any
accept loop; but passing NEITHER is not rejected — `client` defaults to
true and the process runs in client mode.  (The in-code check for "neither
mode" at main.rs:31 is unreachable because the parsed `client` field is
always true, and even it would exit with code 0, since `main` falls
through to `Ok(())` after the eprintln.) -/
theorem c5_mode_flags_amended :
    mainRun cliBothModes = MainOutcome.usageExit ∧
    exitNonzero MainOutcome.usageExit = true ∧
    entersLoop MainOutcome.usageExit = false ∧
    mainRun cliNoMode = MainOutcome.runs Transport.udp Transport.tcp ∧
    exitNonzero MainOutcome.modeErrorExit0 = false :=
  ⟨rfl, rfl, rfl, rfl, rfl⟩

end TKW
